import Mathlib

/-!
A shallow embedding of the screenshot redaction pipeline of `testApp`
(`src/features/screenshot/processing.py` and `src/app.py`), together with
theorems about its behavior.

Modelling conventions:
* A `Bitmap` is a width, a height and a pixel function `Int → Int → Int`
  (one channel value per coordinate; the channel layout is irrelevant to
  every property proved here, which only compares pixels for equality).
* `cv2.GaussianBlur` is an external library call; it is modelled as an
  explicit parameter `g : Gauss` giving the blurred value of each pixel of
  the targeted sub-region (it may read the whole region of the input).
* Python floats (OCR confidences) are modelled as exact rationals.
* Python exceptions become explicit outcome constructors: the OCR engines
  are external, so each detector takes its engine's outcome (unavailable /
  generic error / a list of results) as a parameter, mirroring the
  `try/except` structure of the source.
-/

/-- Model of `cv2.GaussianBlur` applied to the sub-view `[xm,xM) × [ym,yM)` of a
bitmap: given the original bitmap, the clamped region bounds and a pixel
coordinate inside the region, produces the blurred value there. -/
def Gauss : Type := (Int → Int → Int) → Int → Int → Int → Int → Int → Int → Int

/-- An in-memory image: height, width (as in `image_np.shape[:2] = (h, w)`)
and a pixel value at each coordinate `(x, y)`. -/
structure Bitmap where
  h : Int
  w : Int
  pix : Int → Int → Int

/-- Python's `str.isdigit()`: true iff the string is nonempty and every
character is a digit (only ASCII decimal digits are modelled; the Unicode
digit categories Python also accepts never arise in the texts at issue). -/
def pyIsdigit (s : String) : Bool :=
  !s.data.isEmpty && s.data.all (fun c => c.isDigit)

/-- The whitespace characters removed by Python's `str.strip()` (the ASCII
ones; Unicode whitespace never arises in the texts at issue). -/
def isPySpace (c : Char) : Bool :=
  c = ' ' || c = '\t' || c = '\n' || c = '\x0d' || c = '\x0b' || c = '\x0c'

/-- Python's `str.strip()`: remove leading and trailing whitespace. -/
def pyStrip (s : String) : String :=
  ⟨(((s.data.dropWhile isPySpace).reverse.dropWhile isPySpace).reverse)⟩

/-- Python's `str.lower()` (ASCII case mapping; the label vocabulary and
the texts at issue are ASCII). -/
def pyLower (s : String) : String :=
  ⟨s.data.map Char.toLower⟩

/-- Python's substring test `sub in s`. -/
def strContains (s sub : String) : Bool :=
  (List.range (s.data.length + 1)).any (fun i => sub.data.isPrefixOf (s.data.drop i))

/-- Model of `blur_region(image_np, x_min, y_min, x_max, y_max)` from
`processing.py`: rejects inverted boxes, clamps to the image bounds,
rejects boxes degenerate after clamping, and otherwise overwrites the
clamped sub-region with its Gaussian blur, leaving all other pixels as
they were.  The `view.size > 0` test of the source is kept verbatim
(`size = channels * (y_max - y_min) * (x_max - x_min)`, with 3 channels). -/
def blur_region (g : Gauss) (image_np : Bitmap)
    (x_min y_min x_max y_max : Int) : Bitmap :=
  if x_min ≥ x_max ∨ y_min ≥ y_max then image_np
  else
    let xm := max 0 x_min
    let ym := max 0 y_min
    let xM := min image_np.w x_max
    let yM := min image_np.h y_max
    if xm ≥ xM ∨ ym ≥ yM then image_np
    else if 3 * (yM - ym) * (xM - xm) > 0 then
      { image_np with pix := fun x y =>
          if xm ≤ x ∧ x < xM ∧ ym ≤ y ∧ y < yM then g image_np.pix xm ym xM yM x y
          else image_np.pix x y }
    else image_np

/-- One row of `pytesseract.image_to_data(...)` output: confidence and the
box `(left, top, width, height)` for a recognized token. -/
structure TessRow where
  conf : Int
  text : String
  left : Int
  top : Int
  width : Int
  height : Int

/-- Outcome of the Pytesseract call inside `blur_numbers_pytesseract`:
the engine binary is missing (`TesseractNotFoundError`), some other
exception occurred, or recognition produced a list of rows. -/
inductive TessOutcome where
  | unavailable : TessOutcome
  | error : TessOutcome
  | results : List TessRow → TessOutcome

/-- Model of `blur_numbers_pytesseract(image)` from `processing.py`.  `enabled`
models `config_manager.get_boolean("BLUR", "enable_blurring")`.  Rows
with confidence below 50 are skipped; rows whose stripped text is purely
numeric are blurred.  On `TesseractNotFoundError` the function returns
the input image; on any other exception it returns `None`. -/
def blur_numbers_pytesseract (enabled : Bool) (g : Gauss) (tess : TessOutcome)
    (image : Bitmap) : Option Bitmap :=
  if !enabled then some image
  else
    match tess with
    | .unavailable => some image
    | .error => none
    | .results rows =>
        some (rows.foldl (fun image_np d =>
          if d.conf < 50 then image_np
          else if pyIsdigit (pyStrip d.text) then
            blur_region g image_np d.left d.top (d.left + d.width) (d.top + d.height)
          else image_np) image)

/-- One EasyOCR detection `(bbox, text, prob)`: four corner points of a
quadrilateral, the recognized text and a confidence. -/
structure OcrResult where
  p1 : Int × Int
  p2 : Int × Int
  p3 : Int × Int
  p4 : Int × Int
  text : String
  prob : ℚ

/-- Outcome of the EasyOCR engine inside `blur_sensitive_data`: lazy
initialization in `get_ocr_reader` failed (`RuntimeError`), some other
exception occurred, or reading produced a list of detections. -/
inductive OcrOutcome where
  | unavailable : OcrOutcome
  | error : OcrOutcome
  | results : List OcrResult → OcrOutcome

/-- The keyword vocabulary `sensitive_labels` of `blur_sensitive_data`. -/
def sensitive_labels : List String :=
  ["address", "cc", "credit", "card", "number",
   "zip", "postcode",
   "ssn", "social", "security",
   "passport", "driver", "license", "dl",
   "dob", "birth"]

/-- The per-detection decision `blur_this_box` of `blur_sensitive_data`:
rule 1 flags purely numeric text with confidence above `0.6`; otherwise
rule 2 flags text whose lowercased, stripped form contains some label of
`labels` as a substring. -/
def blur_this_box (labels : List String) (text : String) (prob : ℚ) : Bool :=
  if pyIsdigit text && decide ((0.6 : ℚ) < prob) then true
  else labels.any (fun label => strContains (pyStrip (pyLower text)) label)

/-- The padded axis-aligned box computed from an EasyOCR quadrilateral in
`blur_sensitive_data`: min/max over the corner coordinates, then padding
of 2 pixels (clamped at 0 on the min side only). -/
def padded_box (r : OcrResult) : Int × Int × Int × Int :=
  let x_min := min (min r.p1.1 r.p2.1) (min r.p3.1 r.p4.1)
  let y_min := min (min r.p1.2 r.p2.2) (min r.p3.2 r.p4.2)
  let x_max := max (max r.p1.1 r.p2.1) (max r.p3.1 r.p4.1)
  let y_max := max (max r.p1.2 r.p2.2) (max r.p3.2 r.p4.2)
  (max 0 (x_min - 2), max 0 (y_min - 2), x_max + 2, y_max + 2)

/-- Model of `blur_sensitive_data(image)` from `processing.py`: pass-through when
blurring is disabled; `None` when EasyOCR initialization fails
(`RuntimeError` from `get_ocr_reader`) or any other exception occurs;
otherwise each detection flagged by `blur_this_box` has its padded box
blurred, in order. -/
def blur_sensitive_data (enabled : Bool) (g : Gauss) (ocr : OcrOutcome)
    (image : Bitmap) : Option Bitmap :=
  if !enabled then some image
  else
    match ocr with
    | .unavailable => none
    | .error => none
    | .results rs =>
        some (rs.foldl (fun image_np r =>
          if blur_this_box sensitive_labels r.text r.prob then
            let b := padded_box r
            blur_region g image_np b.1 b.2.1 b.2.2.1 b.2.2.2
          else image_np) image)

/-- The processing stage of `App.take_and_store_screenshot` in `app.py`:
the bitmap that gets stored.  When blurring is enabled it calls
`blur_sensitive_data`; if that returns `None` (or raises) the original
screenshot is kept; when blurring is disabled the screenshot is stored
as captured. -/
def take_and_store_screenshot (enabled : Bool) (g : Gauss) (ocr : OcrOutcome)
    (screenshot : Bitmap) : Bitmap :=
  if enabled then
    match blur_sensitive_data enabled g ocr screenshot with
    | some processed => processed
    | none => screenshot
  else screenshot

/-- Helper for `pySplit`: split a character list at each comma, keeping
empty pieces, with `acc` the (reversed) current piece. -/
def splitCommaAux : List Char → List Char → List String
  | [], acc => [⟨acc.reverse⟩]
  | c :: cs, acc =>
      if c = ',' then ⟨acc.reverse⟩ :: splitCommaAux cs []
      else splitCommaAux cs (c :: acc)

/-- Python's `str.split(',')`: every comma separates, empty pieces are
kept, and the empty string yields `[""]`. -/
def pySplit (s : String) : List String :=
  splitCommaAux s.data []

/-- Parse a nonempty all-digit character list as a natural number. -/
def parseDigits (cs : List Char) : Option Nat :=
  if cs.isEmpty then none
  else if cs.all Char.isDigit then
    some (cs.foldl (fun n c => 10 * n + (c.toNat - 48)) 0)
  else none

/-- Python's `int(str)`: surrounding whitespace is ignored, an optional
sign precedes a nonempty digit string; anything else raises `ValueError`
(modelled as `none`).  Python's underscore digit grouping and non-ASCII
digits are not modelled. -/
def pyInt (s : String) : Option Int :=
  match (pyStrip s).data with
  | '-' :: rest => (parseDigits rest).map (fun n => -(n : Int))
  | '+' :: rest => (parseDigits rest).map (fun n => (n : Int))
  | cs => (parseDigits cs).map (fun n => (n : Int))

/-- Model of `_load_blur_settings()` from `processing.py`, as a function of the two
configured strings (after the config manager's fallbacks).  The kernel
string is split on `,` and each part parsed with `int`; any parse failure,
a part count other than 2, or a non-positive kernel dimension or intensity
raises `ValueError`, caught to yield the default `((15, 15), 35)`.
Otherwise each kernel dimension is forced odd with `k | 1`. -/
def load_blur_settings (kernel_str intensity_str : String) :
    (Int × Int) × Int :=
  match (pySplit kernel_str).mapM pyInt, pyInt intensity_str with
  | some kernel, some intensity =>
      match kernel with
      | [k0, k1] =>
          if k0 ≤ 0 ∨ k1 ≤ 0 ∨ intensity ≤ 0 then ((15, 15), 35)
          else ((Int.lor k0 1, Int.lor k1 1), intensity)
      | _ => ((15, 15), 35)
  | _, _ => ((15, 15), 35)

/-- Validity of the configured blur settings, exactly as
`_load_blur_settings` checks them: both kernel parts and the intensity
parse as `int`, there are exactly two kernel parts, and all three values
are positive. -/
def blur_settings_valid (kernel_str intensity_str : String) : Prop :=
  ∃ k0 k1 n, (pySplit kernel_str).mapM pyInt = some [k0, k1] ∧
    pyInt intensity_str = some n ∧ 0 < k0 ∧ 0 < k1 ∧ 0 < n

/-- The padded boxes of the detections `blur_sensitive_data` flags: the
detections accepted by `blur_this_box` against `sensitive_labels`, each
replaced by its padded axis-aligned box. -/
def flagged_boxes (rs : List OcrResult) : List (Int × Int × Int × Int) :=
  (rs.filter (fun r => blur_this_box sensitive_labels r.text r.prob)).map padded_box

/-- A concrete 100 × 100 all-zero test image. -/
def testImage : Bitmap :=
  { h := 100, w := 100, pix := fun _ _ => 0 }

/-- A concrete blur: every pixel of the blurred region becomes 1 (so on
`testImage` blurring visibly changes every pixel it touches). -/
def constGauss : Gauss := fun _ _ _ _ _ _ _ => 1

theorem nat_lor_one (m : Nat) : m ||| 1 = 2 * (m / 2) + 1 := by
  apply Nat.eq_of_testBit_eq
  intro i
  cases i with
  | zero =>
      simp [Nat.testBit_or]
      omega
  | succ i =>
      rw [Nat.testBit_or, Nat.testBit_add_one, Nat.testBit_add_one, Nat.testBit_add_one]
      have h1 : (1 : Nat) / 2 = 0 := by norm_num
      have h2 : (2 * (m / 2) + 1) / 2 = m / 2 := by omega
      rw [h1, h2]
      simp

theorem int_lor_one_of_pos (k : Int) (hk : 0 < k) :
    Int.lor k 1 = 2 * (k / 2) + 1 := by
  obtain ⟨n, rfl⟩ := Int.eq_ofNat_of_zero_le hk.le
  have h : Int.lor (Int.ofNat n) 1 = Int.ofNat (n ||| 1) := rfl
  simp only [Int.ofNat_eq_natCast] at h
  rw [h, nat_lor_one]
  push_cast
  omega

/-- C8: with redaction disabled in configuration, `blur_sensitive_data`
returns the input bitmap unchanged (a pass-through, not an error), and the
caller stores the captured bitmap as is. -/
theorem redaction_disabled_passthrough (g : Gauss) (ocr : OcrOutcome) (img : Bitmap) :
    blur_sensitive_data false g ocr img = some img ∧
    take_and_store_screenshot false g ocr img = img :=
  ⟨rfl, rfl⟩

/-- C2 counterexample: when EasyOCR initialization fails (the
`RuntimeError` raised by `get_ocr_reader`), `blur_sensitive_data` does not
return a bitmap: it reports failure by returning `None`. -/
theorem engine_init_failure_cex :
    blur_sensitive_data true constGauss OcrOutcome.unavailable testImage = none :=
  rfl

/-- C2 amended: when the General Text Detector's engine fails to
initialize, `blur_sensitive_data` returns the failure value `None`; the
caller in `App.take_and_store_screenshot` then keeps the original bitmap,
with no regions blurred at all (there is no remaining detector). -/
theorem engine_init_failure_returns_none (g : Gauss) (img : Bitmap) :
    blur_sensitive_data true g OcrOutcome.unavailable img = none ∧
    take_and_store_screenshot true g OcrOutcome.unavailable img = img :=
  ⟨rfl, rfl⟩

/-- C3: whenever the redaction pipeline reports total failure (returns
`None`), `App.take_and_store_screenshot` stores the original unredacted
bitmap — the capture is not discarded and no other bitmap is substituted. -/
theorem redaction_failure_keeps_original (enabled : Bool) (g : Gauss)
    (ocr : OcrOutcome) (img : Bitmap)
    (h : blur_sensitive_data enabled g ocr img = none) :
    take_and_store_screenshot enabled g ocr img = img := by
  cases enabled with
  | false => rfl
  | true => simp [take_and_store_screenshot, h]

/-- C3 witness: with blurring enabled and the OCR engine unavailable the
pipeline fails, and the stored bitmap is the original capture. -/
theorem redaction_failure_keeps_original_witness :
    take_and_store_screenshot true constGauss OcrOutcome.unavailable testImage = testImage :=
  redaction_failure_keeps_original true constGauss OcrOutcome.unavailable testImage rfl

/-- C9 counterexample: when the Tesseract engine is missing,
`blur_numbers_pytesseract` returns exactly the same value as a successful
run with zero detections — the condition is not distinguishable from an
empty success, and no orchestrator consumes it. -/
theorem tesseract_unavailable_cex :
    blur_numbers_pytesseract true constGauss TessOutcome.unavailable testImage =
      blur_numbers_pytesseract true constGauss (TessOutcome.results []) testImage :=
  rfl

/-- C9 amended: when the Tesseract engine is unavailable the
Numeric-Sequence Detector does not crash: it catches the error and returns
the input image unchanged — the very value a successful run with zero
detections produces, so the condition is not distinguishable from an empty
success (only the generic-exception path returns the distinct value
`None`). -/
theorem tesseract_unavailable_returns_input (g : Gauss) (img : Bitmap) :
    blur_numbers_pytesseract true g TessOutcome.unavailable img = some img ∧
    blur_numbers_pytesseract true g (TessOutcome.results []) img = some img ∧
    blur_numbers_pytesseract true g TessOutcome.error img = none :=
  ⟨rfl, rfl, rfl⟩

theorem six_tenths_lt_nine_tenths : (0.6 : ℚ) < 9 / 10 := by norm_num

/-- C4: every detection whose text is purely numeric and whose confidence
exceeds 0.6 is flagged by the classifier of `blur_sensitive_data`. -/
theorem pure_numeric_rule_flags (labels : List String) (text : String) (prob : ℚ)
    (hdigit : pyIsdigit text = true) (hconf : (0.6 : ℚ) < prob) :
    blur_this_box labels text prob = true := by
  unfold blur_this_box
  rw [hdigit]
  simp [hconf]

/-- C4 witness: the detection with text `"4111111111111111"` and
confidence 0.9 is flagged. -/
theorem pure_numeric_rule_flags_witness :
    blur_this_box sensitive_labels "4111111111111111" (9 / 10) = true :=
  pure_numeric_rule_flags sensitive_labels "4111111111111111" (9 / 10)
    (by decide) six_tenths_lt_nine_tenths

/-- C5: a detection not matched by the pure-numeric rule is flagged iff
its lowercased, stripped text contains some label of the vocabulary as a
substring (substring containment, not whole-word matching). -/
theorem keyword_rule_iff (labels : List String) (text : String) (prob : ℚ)
    (h : ¬(pyIsdigit text = true ∧ (0.6 : ℚ) < prob)) :
    (blur_this_box labels text prob = true ↔
      ∃ label ∈ labels, strContains (pyStrip (pyLower text)) label = true) := by
  unfold blur_this_box
  have hb : (pyIsdigit text && decide ((0.6 : ℚ) < prob)) = false := by
    cases hd : pyIsdigit text with
    | false => simp
    | true =>
        cases hp : decide ((0.6 : ℚ) < prob) with
        | false => simp
        | true => exact absurd ⟨hd, of_decide_eq_true hp⟩ h
  rw [hb]
  simp [List.any_eq_true]

/-- C5 witness: `"cardigan"` (not purely numeric) is flagged because the
label `"card"` occurs in it as a substring. -/
theorem keyword_rule_iff_witness :
    blur_this_box sensitive_labels "cardigan" (1 / 2) = true :=
  (keyword_rule_iff sensitive_labels "cardigan" (1 / 2)
      (fun hc => absurd hc.1 (by decide))).mpr
    ⟨"card", by decide, by decide⟩

/-- C6: `blur_region` leaves every pixel outside the clamped box
byte-for-byte unchanged, for every bitmap, box and blur function. -/
theorem blur_region_outside_unchanged (g : Gauss) (img : Bitmap)
    (x_min y_min x_max y_max x y : Int)
    (h : x < max 0 x_min ∨ min img.w x_max ≤ x ∨
         y < max 0 y_min ∨ min img.h y_max ≤ y) :
    (blur_region g img x_min y_min x_max y_max).pix x y = img.pix x y := by
  unfold blur_region
  split
  · rfl
  · dsimp only
    split
    · rfl
    · split
      · simp only
        split
        · omega
        · rfl
      · rfl

/-- C6 witness: blurring the box `[10,30) × [10,18)` of the test image
leaves the pixel at `(5, 5)` unchanged. -/
theorem blur_region_outside_unchanged_witness :
    (blur_region constGauss testImage 10 10 30 18).pix 5 5 = testImage.pix 5 5 :=
  blur_region_outside_unchanged constGauss testImage 10 10 30 18 5 5
    (by decide)

/-- C7: `blur_region` is a no-op returning the bitmap unchanged whenever
the box is degenerate before clamping or after clamping to
`[0, width) × [0, height)` — in particular for every box entirely outside
the image bounds — and it never fails. -/
theorem blur_region_degenerate_noop (g : Gauss) (img : Bitmap)
    (x_min y_min x_max y_max : Int)
    (h : x_min ≥ x_max ∨ y_min ≥ y_max ∨
         max 0 x_min ≥ min img.w x_max ∨ max 0 y_min ≥ min img.h y_max) :
    blur_region g img x_min y_min x_max y_max = img := by
  unfold blur_region
  split
  · rfl
  · dsimp only
    split
    · rfl
    · split
      · omega
      · rfl

/-- C7 witness: a box entirely to the right of the 100-pixel-wide test
image is silently skipped. -/
theorem blur_region_degenerate_noop_witness :
    blur_region constGauss testImage 200 10 300 50 = testImage :=
  blur_region_degenerate_noop constGauss testImage 200 10 300 50
    (by decide)

/-- C1 counterexample: a run where the Numeric-Sequence Detector would
flag the numeric token "1234" (conf 96) at box `[10,30) × [10,18)` — its
own blur pass would change pixel `(12,12)` of the test image to 1 — yet
`App.take_and_store_screenshot` (which only ever calls
`blur_sensitive_data`, here with no EasyOCR detections) returns the image
with that pixel untouched at 0: the blurred set is not the union of the
two detectors' flagged regions, because the numeric detector is never
run. -/
theorem numeric_detector_not_run_cex :
    (blur_numbers_pytesseract true constGauss
        (TessOutcome.results [⟨96, "1234", 10, 10, 20, 8⟩]) testImage).map
      (fun b => b.pix 12 12) = some 1 ∧
    take_and_store_screenshot true constGauss (OcrOutcome.results []) testImage = testImage ∧
    testImage.pix 12 12 = 0 := by
  refine ⟨?_, rfl, rfl⟩
  rfl

/-- Unfolding `flagged_boxes` over a cons cell. -/
theorem flagged_boxes_cons (r : OcrResult) (rs : List OcrResult) :
    flagged_boxes (r :: rs) =
      if blur_this_box sensitive_labels r.text r.prob then
        padded_box r :: flagged_boxes rs
      else flagged_boxes rs := by
  unfold flagged_boxes
  rw [List.filter_cons]
  by_cases hc : blur_this_box sensitive_labels r.text r.prob <;> simp [hc]

/-- The blur fold of `blur_sensitive_data` blurs exactly the flagged,
padded boxes, in order. -/
theorem foldl_blur_eq_flagged_boxes (g : Gauss) (rs : List OcrResult) (img : Bitmap) :
    rs.foldl (fun image_np r =>
        if blur_this_box sensitive_labels r.text r.prob then
          let b := padded_box r
          blur_region g image_np b.1 b.2.1 b.2.2.1 b.2.2.2
        else image_np) img =
      (flagged_boxes rs).foldl
        (fun im b => blur_region g im b.1 b.2.1 b.2.2.1 b.2.2.2) img := by
  induction rs generalizing img with
  | nil => rfl
  | cons r rs ih =>
      rw [List.foldl_cons, flagged_boxes_cons]
      by_cases hc : blur_this_box sensitive_labels r.text r.prob
      · simp only [hc, if_true, List.foldl_cons]
        exact ih _
      · simp only [hc, if_false]
        exact ih _

/-- C1 amended: on a successful run the entry point blurs exactly the
regions the Sensitive-Region Classifier flags among the General Text
Detector's results — no union with the Numeric-Sequence Detector, which
the application never invokes. -/
theorem blurred_regions_from_general_detector_only (g : Gauss)
    (rs : List OcrResult) (img : Bitmap) :
    take_and_store_screenshot true g (OcrOutcome.results rs) img =
      (flagged_boxes rs).foldl
        (fun im b => blur_region g im b.1 b.2.1 b.2.2.1 b.2.2.2) img := by
  have h : take_and_store_screenshot true g (OcrOutcome.results rs) img =
      rs.foldl (fun image_np r =>
        if blur_this_box sensitive_labels r.text r.prob then
          let b := padded_box r
          blur_region g image_np b.1 b.2.1 b.2.2.1 b.2.2.2
        else image_np) img := rfl
  rw [h]
  exact foldl_blur_eq_flagged_boxes g rs img

/-- C10: `_load_blur_settings` returns the documented default
`((15,15), 35)` whenever the configured values are invalid (unparsable,
wrong arity, or non-positive); otherwise it returns the configured
intensity together with the configured kernel with each dimension forced
odd by `k | 1` — even dimensions are incremented by one, odd dimensions
kept, so both returned dimensions are odd. -/
theorem load_blur_settings_spec (kernel_str intensity_str : String) :
    (¬ blur_settings_valid kernel_str intensity_str →
        load_blur_settings kernel_str intensity_str = ((15, 15), 35)) ∧
    (∀ k0 k1 n : Int,
        (pySplit kernel_str).mapM pyInt = some [k0, k1] →
        pyInt intensity_str = some n → 0 < k0 → 0 < k1 → 0 < n →
        load_blur_settings kernel_str intensity_str =
          ((Int.lor k0 1, Int.lor k1 1), n) ∧
        Int.lor k0 1 % 2 = 1 ∧ Int.lor k1 1 % 2 = 1 ∧
        (k0 % 2 = 0 → Int.lor k0 1 = k0 + 1) ∧
        (k0 % 2 = 1 → Int.lor k0 1 = k0) ∧
        (k1 % 2 = 0 → Int.lor k1 1 = k1 + 1) ∧
        (k1 % 2 = 1 → Int.lor k1 1 = k1)) := by
  constructor
  · intro hinv
    unfold load_blur_settings
    rcases hk : (pySplit kernel_str).mapM pyInt with _ | kernel
    · rfl
    · rcases hi : pyInt intensity_str with _ | n
      · rfl
      · match kernel with
        | [] => rfl
        | [k0] => rfl
        | k0 :: k1 :: k2 :: rest => rfl
        | [k0, k1] =>
            simp only
            rw [if_pos]
            by_contra hall
            push_neg at hall
            exact hinv ⟨k0, k1, n, hk, hi, by omega, by omega, by omega⟩
  · intro k0 k1 n hk hi h0 h1 hn
    have hload : load_blur_settings kernel_str intensity_str =
        ((Int.lor k0 1, Int.lor k1 1), n) := by
      unfold load_blur_settings
      rw [hk, hi]
      simp only
      rw [if_neg (by omega)]
    have e0 := int_lor_one_of_pos k0 h0
    have e1 := int_lor_one_of_pos k1 h1
    refine ⟨hload, by omega, by omega, by omega, by omega, by omega, by omega⟩

/-- C10 witness: the malformed kernel string `"abc"` falls back to the
default, and the valid kernel `"14,17"` with intensity `"40"` comes back
with the even dimension 14 bumped to 15 and the odd dimension 17 kept. -/
theorem load_blur_settings_spec_witness :
    load_blur_settings "abc" "35" = ((15, 15), 35) ∧
    load_blur_settings "14,17" "40" = ((15, 17), 40) := by
  constructor
  · refine (load_blur_settings_spec "abc" "35").1 ?_
    rintro ⟨k0, k1, n, hk, -, -, -, -⟩
    rw [show (pySplit "abc").mapM pyInt = none from rfl] at hk
    cases hk
  · have h := ((load_blur_settings_spec "14,17" "40").2 14 17 40 rfl rfl
      (by norm_num) (by norm_num) (by norm_num)).1
    rw [h]
    rfl
